import Mathlib

/-!
Verification development for the ThunderOS diagnostic UDP echo server
(`test_udp_host.py`).

The server is embedded shallowly: the process is modelled as a pure
function from its configuration (command-line argument list) and an
environment (whether the bind succeeds at the OS level, and the stream
of events delivered to the blocking receive call) to the list of
observable effects it performs (socket creation, bind, stdout lines,
receives, sends, close, stderr) together with its final outcome
(exit code, or still blocked waiting for traffic).

Payload bytes are `List Nat` (each entry < 256 in practice; the
functions are total on all of `Nat`).  Python `bytes.decode("utf-8",
errors="replace")` is modelled by `utf8DecodeReplace`, a total UTF-8
decoder performing maximal-subpart replacement with U+FFFD, and Python
`int(...)` argument parsing by `parsePyInt`.
-/

/-- A source address: host string and source port, as returned by
`recvfrom` (`addr[0]`, `addr[1]` in the script). -/
structure Addr where
  host : String
  port : Nat
deriving DecidableEq

/-- One inbound datagram as delivered by the network stack: source
address and full payload (before the receive-buffer truncation). -/
structure Datagram where
  src : Addr
  payload : List Nat
deriving DecidableEq

/-- Events the environment delivers to the blocking `recvfrom` call:
a datagram arrives, the operator interrupt (KeyboardInterrupt) fires,
or the receive raises some other OS-level error. -/
inductive Event where
  | pkt (d : Datagram)
  | interrupt
  | oserror
deriving DecidableEq

/-- Observable effects of the process, in program order. -/
inductive Effect where
  | socketCreate
  | bindTo (host : String) (port : Int)
  | printOut (s : String)
  | recvCall (bufsize : Nat)
  | sendTo (payload : List Nat) (dst : Addr)
  | close
  | printErr (s : String)
deriving DecidableEq

/-- Process outcome: `exited c` (clean return exits 0; an uncaught
exception exits 1), or `blocked` — still suspended in `recvfrom`
because the event stream ran out without a terminating event. -/
inductive Outcome where
  | exited (code : Nat)
  | blocked
deriving DecidableEq

/-- Environment: whether the OS-level bind can succeed (port free,
sufficient privilege), and the events fed to the receive loop. -/
structure Env where
  bindFree : Bool
  events : List Event

/-- The receive-buffer ceiling: `sock.recvfrom(1024)` (line 29). -/
def recvCeiling : Nat := 1024

/-- U+FFFD, the Unicode replacement character. -/
def replacementChar : Nat := 0xFFFD

/-- A UTF-8 continuation byte (0x80–0xBF). -/
def isContByte (b : Nat) : Bool := 0x80 ≤ b && b ≤ 0xBF

/-- Valid first continuation byte after a 3-byte leader: E0 narrows to
A0–BF (rejecting overlong forms), ED narrows to 80–9F (rejecting
surrogates). -/
def contOk3 (b c1 : Nat) : Bool :=
  if b = 0xE0 then 0xA0 ≤ c1 && c1 ≤ 0xBF
  else if b = 0xED then 0x80 ≤ c1 && c1 ≤ 0x9F
  else isContByte c1

/-- Valid first continuation byte after a 4-byte leader: F0 narrows to
90–BF (rejecting overlong forms), F4 narrows to 80–8F (capping at
U+10FFFF). -/
def contOk4 (b c1 : Nat) : Bool :=
  if b = 0xF0 then 0x90 ≤ c1 && c1 ≤ 0xBF
  else if b = 0xF4 then 0x80 ≤ c1 && c1 ≤ 0x8F
  else isContByte c1

/-- Worker for `utf8DecodeReplace`, structurally recursive on a fuel
argument.  Each step consumes at least one byte and one unit of fuel,
so any fuel of at least the list length makes the `(0, _ :: _)` case
unreachable. -/
def utf8DecodeAux : Nat → List Nat → List Nat
  | _, [] => []
  | 0, _ :: _ => []
  | fuel + 1, b :: rest =>
    if b ≤ 0x7F then b :: utf8DecodeAux fuel rest
    else if 0xC2 ≤ b && b ≤ 0xDF then
      match rest with
      | [] => [replacementChar]
      | c1 :: rest1 =>
        if isContByte c1 then
          ((b - 0xC0) * 64 + (c1 - 0x80)) :: utf8DecodeAux fuel rest1
        else
          replacementChar :: utf8DecodeAux fuel rest
    else if 0xE0 ≤ b && b ≤ 0xEF then
      match rest with
      | [] => [replacementChar]
      | c1 :: rest1 =>
        if contOk3 b c1 then
          match rest1 with
          | [] => [replacementChar]
          | c2 :: rest2 =>
            if isContByte c2 then
              ((b - 0xE0) * 4096 + (c1 - 0x80) * 64 + (c2 - 0x80))
                :: utf8DecodeAux fuel rest2
            else
              replacementChar :: utf8DecodeAux fuel rest1
        else
          replacementChar :: utf8DecodeAux fuel rest
    else if 0xF0 ≤ b && b ≤ 0xF4 then
      match rest with
      | [] => [replacementChar]
      | c1 :: rest1 =>
        if contOk4 b c1 then
          match rest1 with
          | [] => [replacementChar]
          | c2 :: rest2 =>
            if isContByte c2 then
              match rest2 with
              | [] => [replacementChar]
              | c3 :: rest3 =>
                if isContByte c3 then
                  ((b - 0xF0) * 262144 + (c1 - 0x80) * 4096
                      + (c2 - 0x80) * 64 + (c3 - 0x80))
                    :: utf8DecodeAux fuel rest3
                else
                  replacementChar :: utf8DecodeAux fuel rest2
            else
              replacementChar :: utf8DecodeAux fuel rest1
        else
          replacementChar :: utf8DecodeAux fuel rest
    else
      replacementChar :: utf8DecodeAux fuel rest

/-- Total model of Python `bytes.decode("utf-8", errors="replace")`
(line 35): decodes to a list of Unicode scalar values, substituting
U+FFFD for each maximal subpart of an ill-formed sequence.  It never
fails, on any byte sequence. -/
def utf8DecodeReplace (l : List Nat) : List Nat :=
  utf8DecodeAux l.length l

/-- Render a list of Unicode scalar values as a Lean string, for the
log line. -/
def renderText (cs : List Nat) : String :=
  String.mk (cs.map Char.ofNat)

/-- The stdout line opening each per-packet log block:
`f"\n[Packet #{packet_count}]"` (line 32). -/
def packetHeaderOf (k : Nat) : String :=
  "\n[Packet #" ++ toString k ++ "]"

/-- The final summary line:
`f"\n\nReceived {packet_count} packets. Shutting down..."` (line 42). -/
def summaryMsg (k : Nat) : String :=
  "\n\nReceived " ++ toString k ++ " packets. Shutting down..."

/-- The effects of one loop iteration on a received datagram, with `k`
the packet counter value after the increment (lines 29–39): blocking
receive with the 1024-byte ceiling (which truncates longer payloads),
the four log lines, the echo `sendto` of the raw received bytes, and
the confirmation line. -/
def iterEffects (k : Nat) (d : Datagram) : List Effect :=
  let data := d.payload.take recvCeiling
  [Effect.recvCall recvCeiling,
   Effect.printOut (packetHeaderOf k),
   Effect.printOut ("  From: " ++ d.src.host ++ ":" ++ toString d.src.port),
   Effect.printOut ("  Size: " ++ toString data.length ++ " bytes"),
   Effect.printOut ("  Data: " ++ renderText (utf8DecodeReplace data)),
   Effect.sendTo data d.src,
   Effect.printOut ("  Echoed back to " ++ d.src.host ++ ":" ++ toString d.src.port)]

/-- The `while True` receive loop (lines 26–44), with the packet
counter threaded as `count`.  A `pkt` event runs one full iteration; an
`interrupt` event is the KeyboardInterrupt caught by the `except`
(summary line, then `finally: sock.close()`, then clean return, exit
0); an `oserror` event is an uncaught receive error (the `finally`
still closes the socket, then the exception terminates the process
with a traceback and exit 1).  An exhausted event list leaves the
process blocked in `recvfrom`. -/
def loop : Nat → List Event → List Effect × Outcome
  | _, [] => ([Effect.recvCall recvCeiling], Outcome.blocked)
  | count, Event.pkt d :: rest =>
    let r := loop (count + 1) rest
    (iterEffects (count + 1) d ++ r.fst, r.snd)
  | count, Event.interrupt :: _ =>
    ([Effect.recvCall recvCeiling,
      Effect.printOut (summaryMsg count),
      Effect.close], Outcome.exited 0)
  | _, Event.oserror :: _ =>
    ([Effect.recvCall recvCeiling,
      Effect.close,
      Effect.printErr "OSError: recvfrom failed"], Outcome.exited 1)

/-- The startup banner (lines 20–22). -/
def bannerEffects (port : Int) : List Effect :=
  [Effect.printOut ("UDP Echo Server listening on 0.0.0.0:" ++ toString port),
   Effect.printOut "Waiting for packets from ThunderOS...",
   Effect.printOut (String.mk (List.replicate 50 '-'))]

/-- The message of the OverflowError raised by CPython `sock.bind`
when the port is outside 0–65535. -/
def overflowMsg : String := "OverflowError: bind(): port must be 0-65535."

/-- `udp_echo_server(port)` (lines 15–44).  The socket is created,
then the bind is attempted: CPython raises OverflowError for a port
outside 0–65535, and the OS can refuse the bind (address in use,
privilege); both failures happen before the `try`/`finally`, so no
`sock.close()` runs on those paths and the process dies with exit 1.
On a successful bind the banner is printed and the receive loop runs
with the counter initialized to 0. -/
def udp_echo_server (port : Int) (env : Env) : List Effect × Outcome :=
  if port < 0 ∨ 65535 < port then
    ([Effect.socketCreate, Effect.bindTo "0.0.0.0" port,
      Effect.printErr overflowMsg], Outcome.exited 1)
  else if env.bindFree then
    let r := loop 0 env.events
    (Effect.socketCreate :: Effect.bindTo "0.0.0.0" port
       :: bannerEffects port ++ r.fst, r.snd)
  else
    ([Effect.socketCreate, Effect.bindTo "0.0.0.0" port,
      Effect.printErr "OSError: bind failed"], Outcome.exited 1)

/-- Decimal digit, for Python `int` parsing. -/
def isPyDigit (c : Char) : Bool := 48 ≤ c.toNat && c.toNat ≤ 57

/-- ASCII whitespace stripped by Python `int(str)`. -/
def isPySpace (c : Char) : Bool :=
  c == ' ' || c == '\t' || c == '\n' || c == '\x0d'
    || c == '\x0b' || c == '\x0c'

/-- Digit run with optional single underscores strictly between
digits, as Python `int` accepts. -/
def digitsWithUnderscores : List Char → Bool
  | [] => false
  | [c] => isPyDigit c
  | c :: c2 :: rest =>
    if isPyDigit c then digitsWithUnderscores (c2 :: rest)
    else if c = '_' then isPyDigit c2 && digitsWithUnderscores (c2 :: rest)
    else false

/-- The digit/underscore body of a Python integer literal: nonempty,
begins with a digit, underscores only between digits. -/
def pyIntBody (cs : List Char) : Bool :=
  match cs with
  | [] => false
  | c :: _ => isPyDigit c && digitsWithUnderscores cs

/-- Value of a digit run (underscores already filtered out). -/
def digitsVal (cs : List Char) : Nat :=
  cs.foldl (fun a c => 10 * a + (c.toNat - 48)) 0

/-- Strip leading and trailing whitespace, as Python `int(str)` does. -/
def trimPy (s : String) : List Char :=
  ((s.data.dropWhile isPySpace).reverse.dropWhile isPySpace).reverse

/-- Model of Python `int(s)` on a string argument (line 47): optional
surrounding whitespace, optional single sign, nonempty base-10 digit
run (underscores allowed between digits); anything else raises
ValueError, modelled as `none`. -/
def parsePyInt (s : String) : Option Int :=
  match trimPy s with
  | '+' :: ds =>
    if pyIntBody ds then some (digitsVal (ds.filter isPyDigit)) else none
  | '-' :: ds =>
    if pyIntBody ds then some (-(digitsVal (ds.filter isPyDigit) : Int)) else none
  | ds =>
    if pyIntBody ds then some (digitsVal (ds.filter isPyDigit)) else none

/-- The ValueError message printed in the traceback when `int(s)`
fails. -/
def valueErrMsg (s : String) : String :=
  "ValueError: invalid literal for int() with base 10: " ++ s

/-- The `__main__` block (lines 46–48): `port = int(sys.argv[1]) if
len(sys.argv) > 1 else 9999; udp_echo_server(port)`.  A non-integer
argument makes `int` raise before `udp_echo_server` is ever called (so
before any socket exists); the process dies with the ValueError
traceback and exit 1. -/
def mainRun (argv : List String) (env : Env) : List Effect × Outcome :=
  match argv with
  | _ :: arg :: _ =>
    match parsePyInt arg with
    | some p => udp_echo_server p env
    | none => ([Effect.printErr (valueErrMsg arg)], Outcome.exited 1)
  | _ => udp_echo_server 9999 env

/-- Sent datagrams (payload, destination) extracted from a trace, in
order. -/
def sends (effs : List Effect) : List (List Nat × Addr) :=
  effs.filterMap fun e =>
    match e with
    | Effect.sendTo p a => some (p, a)
    | _ => none

/-- Is this stdout line a per-packet header line (`"\n[Packet #…"`)? -/
def isPacketHeaderLine (s : String) : Bool :=
  match s.data with
  | '\n' :: '[' :: _ => true
  | _ => false

/-- The per-packet header lines of a trace, in order: these carry the
logged sequence numbers. -/
def packetLines (effs : List Effect) : List String :=
  effs.filterMap fun e =>
    match e with
    | Effect.printOut s => if isPacketHeaderLine s then some s else none
    | _ => none

/-- Network-level effects (receives and sends) of a trace. -/
def isNetEffect : Effect → Bool
  | Effect.recvCall _ => true
  | Effect.sendTo _ _ => true
  | _ => false

/-- The receive/send subtrace, exposing the alternation structure. -/
def netProj (effs : List Effect) : List Effect :=
  effs.filter isNetEffect

/-- Number of datagrams received before the first terminating event
(interrupt or receive error). -/
def numPkts : List Event → Nat
  | [] => 0
  | Event.pkt _ :: rest => numPkts rest + 1
  | _ => 0

/-- Does the event stream ever terminate the loop (interrupt or
receive error)? -/
def hasTerm : List Event → Bool
  | [] => false
  | Event.pkt _ :: rest => hasTerm rest
  | _ => true

/-- Effect lists of consecutive loop iterations over a datagram list,
with the counter starting from `c`. -/
def iterList (c : Nat) : List Datagram → List Effect
  | [] => []
  | d :: ds => iterEffects (c + 1) d ++ iterList (c + 1) ds

/-! ### Helper lemmas -/

theorem iphl_hdr (t u : String) :
    isPacketHeaderLine ("\n[Packet #" ++ t ++ u) = true := by
  cases t; cases u; rfl

theorem iphl_from (t u v : String) :
    isPacketHeaderLine ("  From: " ++ t ++ u ++ v) = false := by
  cases t; cases u; cases v; rfl

theorem iphl_size (t u : String) :
    isPacketHeaderLine ("  Size: " ++ t ++ u) = false := by
  cases t; cases u; rfl

theorem iphl_data (t : String) :
    isPacketHeaderLine ("  Data: " ++ t) = false := by
  cases t; rfl

theorem iphl_echoed (t u v : String) :
    isPacketHeaderLine ("  Echoed back to " ++ t ++ u ++ v) = false := by
  cases t; cases u; cases v; rfl

theorem iphl_summary (t u : String) :
    isPacketHeaderLine ("\n\nReceived " ++ t ++ u) = false := by
  cases t; cases u; rfl

theorem iphl_banner (t : String) :
    isPacketHeaderLine ("UDP Echo Server listening on 0.0.0.0:" ++ t) = false := by
  cases t; rfl

theorem packetLines_append (xs ys : List Effect) :
    packetLines (xs ++ ys) = packetLines xs ++ packetLines ys := by
  simp [packetLines]

theorem packetLines_iter (k : Nat) (d : Datagram) :
    packetLines (iterEffects k d) = [packetHeaderOf k] := by
  simp [packetLines, iterEffects, List.filterMap, packetHeaderOf,
    iphl_hdr, iphl_from, iphl_size, iphl_data, iphl_echoed]

theorem sends_append (xs ys : List Effect) :
    sends (xs ++ ys) = sends xs ++ sends ys := by
  simp [sends]

theorem sends_iter (k : Nat) (d : Datagram) :
    sends (iterEffects k d) = [(d.payload.take recvCeiling, d.src)] := rfl

theorem netProj_append (xs ys : List Effect) :
    netProj (xs ++ ys) = netProj xs ++ netProj ys := by
  simp [netProj]

theorem netProj_iter (k : Nat) (d : Datagram) :
    netProj (iterEffects k d)
      = [Effect.recvCall recvCeiling,
         Effect.sendTo (d.payload.take recvCeiling) d.src] := rfl

theorem loop_pkt (c : Nat) (d : Datagram) (evs : List Event) :
    loop c (Event.pkt d :: evs)
      = (iterEffects (c + 1) d ++ (loop (c + 1) evs).fst,
         (loop (c + 1) evs).snd) := rfl

theorem loop_run (c : Nat) (pkts : List Datagram) :
    loop c (pkts.map Event.pkt ++ [Event.interrupt])
      = (iterList c pkts
          ++ [Effect.recvCall recvCeiling,
              Effect.printOut (summaryMsg (c + pkts.length)),
              Effect.close],
         Outcome.exited 0) := by
  induction pkts generalizing c with
  | nil => simp [loop, iterList]
  | cons d ds ih =>
    have h : c + 1 + ds.length = c + (ds.length + 1) := by omega
    simp [loop_pkt, iterList, ih, h]

theorem udp_run (port : Int) (env : Env)
    (h1 : ¬(port < 0 ∨ 65535 < port)) (h2 : env.bindFree = true) :
    udp_echo_server port env
      = ([Effect.socketCreate, Effect.bindTo "0.0.0.0" port]
           ++ bannerEffects port ++ (loop 0 env.events).fst,
         (loop 0 env.events).snd) := by
  simp [udp_echo_server, h1, h2]

theorem packetLines_pre (port : Int) :
    packetLines [Effect.socketCreate, Effect.bindTo "0.0.0.0" port] = [] := rfl

theorem sends_pre (port : Int) :
    sends [Effect.socketCreate, Effect.bindTo "0.0.0.0" port] = [] := rfl

theorem netProj_pre (port : Int) :
    netProj [Effect.socketCreate, Effect.bindTo "0.0.0.0" port] = [] := rfl

theorem pre_count_close (port : Int) :
    ([Effect.socketCreate, Effect.bindTo "0.0.0.0" port]).count Effect.close
      = 0 := rfl

theorem packetLines_cons_sock (xs : List Effect) :
    packetLines (Effect.socketCreate :: xs) = packetLines xs := rfl

theorem packetLines_cons_bind (h : String) (p : Int) (xs : List Effect) :
    packetLines (Effect.bindTo h p :: xs) = packetLines xs := rfl

theorem sends_cons_sock (xs : List Effect) :
    sends (Effect.socketCreate :: xs) = sends xs := rfl

theorem sends_cons_bind (h : String) (p : Int) (xs : List Effect) :
    sends (Effect.bindTo h p :: xs) = sends xs := rfl

theorem netProj_cons_sock (xs : List Effect) :
    netProj (Effect.socketCreate :: xs) = netProj xs := rfl

theorem netProj_cons_bind (h : String) (p : Int) (xs : List Effect) :
    netProj (Effect.bindTo h p :: xs) = netProj xs := rfl

theorem packetLines_tail (n k : Nat) :
    packetLines [Effect.recvCall n, Effect.printOut (summaryMsg k),
      Effect.close] = [] := by
  simp [packetLines, List.filterMap, summaryMsg, iphl_summary]

theorem sends_tail (n k : Nat) :
    sends [Effect.recvCall n, Effect.printOut (summaryMsg k),
      Effect.close] = [] := rfl

theorem netProj_tail (n k : Nat) :
    netProj [Effect.recvCall n, Effect.printOut (summaryMsg k),
      Effect.close] = [Effect.recvCall n] := rfl

theorem numPkts_run (pkts : List Datagram) :
    numPkts (pkts.map Event.pkt ++ [Event.interrupt]) = pkts.length := by
  induction pkts with
  | nil => rfl
  | cons d ds ih => simp [numPkts, ih]

theorem packetLines_loop (c : Nat) (evs : List Event) :
    packetLines (loop c evs).fst
      = (List.range' (c + 1) (numPkts evs)).map packetHeaderOf := by
  induction evs generalizing c with
  | nil => simp [loop, packetLines, numPkts]
  | cons e rest ih =>
    cases e with
    | pkt d =>
      simp [loop_pkt, numPkts, packetLines_append, packetLines_iter, ih,
        List.range'_succ]
    | interrupt =>
      simp [loop, packetLines, numPkts, List.filterMap, summaryMsg, iphl_summary]
    | oserror =>
      simp [loop, packetLines, numPkts, List.filterMap]

theorem packetLines_banner (port : Int) :
    packetLines (bannerEffects port) = [] := by
  simp [packetLines, bannerEffects, List.filterMap, iphl_banner]
  decide

theorem packetLines_iterList_range (c : Nat) (pkts : List Datagram) :
    packetLines (iterList c pkts)
      = (List.range' (c + 1) pkts.length).map packetHeaderOf := by
  induction pkts generalizing c with
  | nil => rfl
  | cons d ds ih =>
    simp [iterList, packetLines_append, packetLines_iter, ih, List.range'_succ]

theorem sends_iterList (c : Nat) (pkts : List Datagram) :
    sends (iterList c pkts)
      = pkts.map (fun d => (d.payload.take recvCeiling, d.src)) := by
  induction pkts generalizing c with
  | nil => rfl
  | cons d ds ih => simp [iterList, sends_append, sends_iter, ih]

theorem netProj_iterList (c : Nat) (pkts : List Datagram) :
    netProj (iterList c pkts)
      = (pkts.map (fun d =>
          [Effect.recvCall recvCeiling,
           Effect.sendTo (d.payload.take recvCeiling) d.src])).flatten := by
  induction pkts generalizing c with
  | nil => rfl
  | cons d ds ih => simp [iterList, netProj_append, netProj_iter, ih]

theorem sends_banner (port : Int) : sends (bannerEffects port) = [] := rfl

theorem netProj_banner (port : Int) : netProj (bannerEffects port) = [] := rfl

theorem close_mem_loop (c : Nat) (evs : List Event) (h : hasTerm evs = true) :
    Effect.close ∈ (loop c evs).fst := by
  induction evs generalizing c with
  | nil => simp [hasTerm] at h
  | cons e rest ih =>
    cases e with
    | pkt d =>
      rw [loop_pkt]
      exact List.mem_append_right _ (ih (c + 1) (by simpa [hasTerm] using h))
    | interrupt => simp [loop]
    | oserror => simp [loop]

theorem iter_count_close (k : Nat) (d : Datagram) :
    (iterEffects k d).count Effect.close = 0 := rfl

theorem banner_count_close (port : Int) :
    (bannerEffects port).count Effect.close = 0 := rfl

theorem close_count_loop (c : Nat) (evs : List Event) :
    (loop c evs).fst.count Effect.close
      = if hasTerm evs = true then 1 else 0 := by
  induction evs generalizing c with
  | nil => simp [loop, hasTerm]
  | cons e rest ih =>
    cases e with
    | pkt d =>
      simp [loop_pkt, hasTerm, List.count_append, ih, iter_count_close]
    | interrupt => simp [loop, hasTerm]
    | oserror => simp [loop, hasTerm]

/-! ### Claim theorems -/

/-- C1 (echo identity): a datagram with payload `p` of length ≤ 1024
from address `a` is answered by exactly one send, back to `a`, whose
payload is exactly `p`; moreover for an arbitrary payload `q` the
receive returns at most 1024 bytes (`q.take recvCeiling`), that
truncated payload is echoed rather than any error being raised, and
the loop outcome is unaffected. -/
theorem echo_identity (a : Addr) (p : List Nat) (c : Nat) (evs : List Event)
    (hp : p.length ≤ recvCeiling) :
    sends (loop c (Event.pkt ⟨a, p⟩ :: evs)).fst
        = (p, a) :: sends (loop (c + 1) evs).fst
    ∧ ∀ q : List Nat,
        sends (loop c (Event.pkt ⟨a, q⟩ :: evs)).fst
            = (q.take recvCeiling, a) :: sends (loop (c + 1) evs).fst
        ∧ (q.take recvCeiling).length ≤ recvCeiling
        ∧ (loop c (Event.pkt ⟨a, q⟩ :: evs)).snd = (loop (c + 1) evs).snd := by
  refine ⟨?_, fun q => ⟨?_, ?_, rfl⟩⟩
  · rw [loop_pkt]
    simp [sends_append, sends_iter, List.take_of_length_le hp]
  · rw [loop_pkt]
    simp [sends_append, sends_iter]
  · simp [List.length_take]

/-- Witness for C1: a two-byte payload is echoed verbatim. -/
theorem echo_identity_witness :
    sends (loop 0 (Event.pkt ⟨⟨"10.0.2.2", 5555⟩, [104, 105]⟩
        :: [Event.interrupt])).fst
      = ([104, 105], ⟨"10.0.2.2", 5555⟩) :: sends (loop 1 [Event.interrupt]).fst :=
  (echo_identity ⟨"10.0.2.2", 5555⟩ [104, 105] 0 [Event.interrupt] (by decide)).1

/-- C2 (packet-counter invariant): with a successful bind, the logged
packet numbers over the whole run are exactly 1, 2, …, numPkts —
the counter starts at 0, is incremented by exactly 1 per received
datagram, and is never decremented or reset. -/
theorem packet_counter_invariant (port : Int) (env : Env)
    (h1 : ¬(port < 0 ∨ 65535 < port)) (h2 : env.bindFree = true) :
    packetLines (udp_echo_server port env).fst
      = (List.range' 1 (numPkts env.events)).map packetHeaderOf := by
  rw [udp_run port env h1 h2]
  simp [packetLines_append, packetLines_cons_sock, packetLines_cons_bind,
    packetLines_banner, packetLines_loop]

/-- Witness for C2 at a concrete two-packet run. -/
theorem packet_counter_invariant_witness :
    packetLines (udp_echo_server 9999
        ⟨true, [Event.pkt ⟨⟨"10.0.2.2", 5555⟩, [104]⟩,
                Event.pkt ⟨⟨"10.0.2.3", 6666⟩, [105]⟩,
                Event.interrupt]⟩).fst
      = (List.range' 1 (numPkts [Event.pkt ⟨⟨"10.0.2.2", 5555⟩, [104]⟩,
                Event.pkt ⟨⟨"10.0.2.3", 6666⟩, [105]⟩,
                Event.interrupt])).map packetHeaderOf :=
  packet_counter_invariant 9999
    ⟨true, [Event.pkt ⟨⟨"10.0.2.2", 5555⟩, [104]⟩,
            Event.pkt ⟨⟨"10.0.2.3", 6666⟩, [105]⟩,
            Event.interrupt]⟩ (by decide) rfl

/-- C3 (port selection): no argument binds the wildcard address on
port 9999; argument "8080" binds on 8080; in general any argument that
parses as an integer is passed straight to `udp_echo_server`. -/
theorem port_selection (env : Env) :
    mainRun ["test_udp_host.py"] env = udp_echo_server 9999 env
    ∧ ((mainRun ["test_udp_host.py"] env).fst).take 2
        = [Effect.socketCreate, Effect.bindTo "0.0.0.0" 9999]
    ∧ ((mainRun ["test_udp_host.py", "8080"] env).fst).take 2
        = [Effect.socketCreate, Effect.bindTo "0.0.0.0" 8080]
    ∧ ∀ s : String, ∀ n : Int, parsePyInt s = some n →
        mainRun ["test_udp_host.py", s] env = udp_echo_server n env := by
  have h8 : parsePyInt "8080" = some 8080 := by decide
  refine ⟨rfl, ?_, ?_, fun s n h => by simp [mainRun, h]⟩
  · show ((udp_echo_server 9999 env).fst).take 2 = _
    unfold udp_echo_server
    rw [if_neg (by decide)]
    cases hb : env.bindFree <;> simp [List.take]
  · show ((mainRun ["test_udp_host.py", "8080"] env).fst).take 2 = _
    simp only [mainRun, h8]
    unfold udp_echo_server
    rw [if_neg (by decide)]
    cases hb : env.bindFree <;> simp [List.take]

/-- Witness for C3: argument "8080" reaches `udp_echo_server 8080`. -/
theorem port_selection_witness :
    mainRun ["test_udp_host.py", "8080"] ⟨true, []⟩
      = udp_echo_server 8080 ⟨true, []⟩ :=
  (port_selection ⟨true, []⟩).2.2.2 "8080" 8080 (by decide)

/-- C4 counterexample: "70000" is not a valid port (outside 1–65535),
yet the process creates the socket and proceeds to the bind attempt —
the error is not detected before socket creation. -/
theorem config_error_counterexample :
    parsePyInt "70000" = some 70000
    ∧ Effect.socketCreate
        ∈ (mainRun ["test_udp_host.py", "70000"] ⟨true, []⟩).fst
    ∧ Effect.bindTo "0.0.0.0" 70000
        ∈ (mainRun ["test_udp_host.py", "70000"] ⟨true, []⟩).fst := by
  decide

/-- C4 amended: for every invocation whose port argument does not
parse as an integer, the error is detected before socket creation (the
trace holds no socket or bind effect at all), the process reports the
ValueError message, and it exits with a non-zero status without ever
binding or serving. -/
theorem config_error_nonint (s : String) (env : Env)
    (h : parsePyInt s = none) :
    mainRun ["test_udp_host.py", s] env
      = ([Effect.printErr (valueErrMsg s)], Outcome.exited 1) := by
  simp [mainRun, h]

/-- Witness for the amended C4 at argument "abc". -/
theorem config_error_nonint_witness :
    mainRun ["test_udp_host.py", "abc"] ⟨true, []⟩
      = ([Effect.printErr (valueErrMsg "abc")], Outcome.exited 1) :=
  config_error_nonint "abc" ⟨true, []⟩ (by decide)

/-- C5 (decode robustness): for every received payload — valid UTF-8
or not — the iteration completes without any error outcome, the log
entry rendering the payload with the replacement-character decoder is
produced, and the echoed bytes are the original raw (truncated)
payload, independent of the decode result; a lone 0xFF byte decodes to
exactly one U+FFFD. -/
theorem decode_robustness (a : Addr) (p : List Nat) (c : Nat) (evs : List Event) :
    (loop c (Event.pkt ⟨a, p⟩ :: evs)).snd = (loop (c + 1) evs).snd
    ∧ Effect.printOut ("  Data: "
          ++ renderText (utf8DecodeReplace (p.take recvCeiling)))
        ∈ (loop c (Event.pkt ⟨a, p⟩ :: evs)).fst
    ∧ Effect.sendTo (p.take recvCeiling) a
        ∈ (loop c (Event.pkt ⟨a, p⟩ :: evs)).fst
    ∧ utf8DecodeReplace [255] = [replacementChar] := by
  refine ⟨rfl, ?_, ?_, by decide⟩
  · rw [loop_pkt]
    exact List.mem_append_left _ (by simp [iterEffects])
  · rw [loop_pkt]
    exact List.mem_append_left _ (by simp [iterEffects])

/-- C6 (clean shutdown): if the interrupt arrives after exactly
`pkts.length` datagrams, the process emits the final summary stating
that count, closes the socket as its last action, performs no further
receive or send, and exits with status 0. -/
theorem clean_shutdown (port : Int) (env : Env) (pkts : List Datagram)
    (h1 : ¬(port < 0 ∨ 65535 < port)) (h2 : env.bindFree = true)
    (h3 : env.events = pkts.map Event.pkt ++ [Event.interrupt]) :
    (udp_echo_server port env).snd = Outcome.exited 0
    ∧ (udp_echo_server port env).fst
        = Effect.socketCreate :: Effect.bindTo "0.0.0.0" port
            :: bannerEffects port ++ iterList 0 pkts
            ++ [Effect.recvCall recvCeiling,
                Effect.printOut (summaryMsg pkts.length),
                Effect.close] := by
  rw [udp_run port env h1 h2, h3, loop_run]
  exact ⟨rfl, by simp⟩

/-- Witness for C6: one packet then interrupt gives summary "1" and
exit 0. -/
theorem clean_shutdown_witness :
    (udp_echo_server 9999
        ⟨true, [Event.pkt ⟨⟨"10.0.2.2", 5555⟩, [104]⟩, Event.interrupt]⟩).snd
      = Outcome.exited 0
    ∧ (udp_echo_server 9999
        ⟨true, [Event.pkt ⟨⟨"10.0.2.2", 5555⟩, [104]⟩, Event.interrupt]⟩).fst
        = Effect.socketCreate :: Effect.bindTo "0.0.0.0" 9999
            :: bannerEffects 9999
            ++ iterList 0 ([⟨⟨"10.0.2.2", 5555⟩, [104]⟩] : List Datagram)
            ++ [Effect.recvCall recvCeiling,
                Effect.printOut (summaryMsg
                  ([⟨⟨"10.0.2.2", 5555⟩, [104]⟩] : List Datagram).length),
                Effect.close] :=
  clean_shutdown 9999
    ⟨true, [Event.pkt ⟨⟨"10.0.2.2", 5555⟩, [104]⟩, Event.interrupt]⟩
    [⟨⟨"10.0.2.2", 5555⟩, [104]⟩] (by decide) rfl rfl

/-- C7 counterexample: on the bind-failure exit path (port free check
fails at the OS level) the socket is created but the program never
closes it — `sock.close()` is unreachable because the failure occurs
before the `try`/`finally`. -/
theorem socket_release_counterexample :
    (udp_echo_server 9999 ⟨false, []⟩).snd = Outcome.exited 1
    ∧ Effect.socketCreate ∈ (udp_echo_server 9999 ⟨false, []⟩).fst
    ∧ Effect.close ∉ (udp_echo_server 9999 ⟨false, []⟩).fst := by
  decide

/-- C7 amended: on every exit path that leaves the receive loop — the
interrupt path, including interruption mid-receive, and error paths
raised inside the loop — the program closes the socket, exactly once.
(On a bind failure, which precedes the `try`/`finally`, the program
itself never calls close.) -/
theorem socket_release (port : Int) (env : Env)
    (h1 : ¬(port < 0 ∨ 65535 < port)) (h2 : env.bindFree = true)
    (h3 : hasTerm env.events = true) :
    Effect.close ∈ (udp_echo_server port env).fst
    ∧ (udp_echo_server port env).fst.count Effect.close = 1 := by
  rw [udp_run port env h1 h2]
  constructor
  · have hm := close_mem_loop 0 env.events h3
    simp [List.mem_cons, List.mem_append, hm]
  · simp [List.count_cons, List.count_append, banner_count_close,
      close_count_loop, h3]

/-- Witness for the amended C7: interrupt while blocked in the first
receive still closes the socket exactly once. -/
theorem socket_release_witness :
    Effect.close ∈ (udp_echo_server 9999 ⟨true, [Event.interrupt]⟩).fst
    ∧ (udp_echo_server 9999 ⟨true, [Event.interrupt]⟩).fst.count Effect.close
        = 1 :=
  socket_release 9999 ⟨true, [Event.interrupt]⟩ (by decide) rfl rfl

/-- C8 (order preservation and strict alternation): over a run of
`pkts` datagrams ended by the interrupt, the echoes are sent in
arrival order with the source of each as destination, the logged
sequence numbers are 1..N in arrival order, and the receive/send
subtrace is a strict alternation — exactly one receive then one send
per datagram, ending with the single receive in which the interrupt
arrives. -/
theorem order_preservation (port : Int) (env : Env) (pkts : List Datagram)
    (h1 : ¬(port < 0 ∨ 65535 < port)) (h2 : env.bindFree = true)
    (h3 : env.events = pkts.map Event.pkt ++ [Event.interrupt]) :
    sends (udp_echo_server port env).fst
        = pkts.map (fun d => (d.payload.take recvCeiling, d.src))
    ∧ packetLines (udp_echo_server port env).fst
        = (List.range' 1 pkts.length).map packetHeaderOf
    ∧ netProj (udp_echo_server port env).fst
        = (pkts.map (fun d =>
            [Effect.recvCall recvCeiling,
             Effect.sendTo (d.payload.take recvCeiling) d.src])).flatten
          ++ [Effect.recvCall recvCeiling] := by
  rw [udp_run port env h1 h2, h3, loop_run]
  refine ⟨?_, ?_, ?_⟩
  · simp [sends_append, sends_cons_sock, sends_cons_bind, sends_banner,
      sends_iterList, sends_tail]
  · simp [packetLines_append, packetLines_cons_sock, packetLines_cons_bind,
      packetLines_banner, packetLines_iterList_range, packetLines_tail]
  · simp [netProj_append, netProj_cons_sock, netProj_cons_bind,
      netProj_banner, netProj_iterList, netProj_tail]

/-- Witness for C8 at a concrete two-packet run from two sources. -/
theorem order_preservation_witness :
    sends (udp_echo_server 9999
        ⟨true, [Event.pkt ⟨⟨"10.0.2.2", 5555⟩, [104]⟩,
                Event.pkt ⟨⟨"10.0.2.3", 6666⟩, [105, 106]⟩,
                Event.interrupt]⟩).fst
      = ([⟨⟨"10.0.2.2", 5555⟩, [104]⟩,
          ⟨⟨"10.0.2.3", 6666⟩, [105, 106]⟩] : List Datagram).map
          (fun d => (d.payload.take recvCeiling, d.src)) :=
  (order_preservation 9999
    ⟨true, [Event.pkt ⟨⟨"10.0.2.2", 5555⟩, [104]⟩,
            Event.pkt ⟨⟨"10.0.2.3", 6666⟩, [105, 106]⟩,
            Event.interrupt]⟩
    [⟨⟨"10.0.2.2", 5555⟩, [104]⟩, ⟨⟨"10.0.2.3", 6666⟩, [105, 106]⟩]
    (by decide) rfl rfl).1

/-- C9 (out-of-range integer ports pass argument parsing): any
argument string parsing as an integer reaches `udp_echo_server`
unchanged; when the value is outside 0–65535 the socket is created
first and the failure is raised by the bind call, after which the
process dies with exit 1. -/
theorem out_of_range_ports (s : String) (n : Int) (env : Env)
    (h1 : parsePyInt s = some n) :
    mainRun ["test_udp_host.py", s] env = udp_echo_server n env
    ∧ (n < 0 ∨ 65535 < n →
        (udp_echo_server n env).fst
            = [Effect.socketCreate, Effect.bindTo "0.0.0.0" n,
               Effect.printErr overflowMsg]
          ∧ (udp_echo_server n env).snd = Outcome.exited 1) := by
  refine ⟨by simp [mainRun, h1], fun h2 => ?_⟩
  unfold udp_echo_server
  rw [if_pos h2]
  exact ⟨rfl, rfl⟩

/-- Witness for C9 at argument "70000": socket creation precedes the
bind failure. -/
theorem out_of_range_ports_witness :
    (udp_echo_server 70000 ⟨true, []⟩).fst
        = [Effect.socketCreate, Effect.bindTo "0.0.0.0" 70000,
           Effect.printErr overflowMsg]
      ∧ (udp_echo_server 70000 ⟨true, []⟩).snd = Outcome.exited 1 :=
  (out_of_range_ports "70000" 70000 ⟨true, []⟩ (by decide)).2 (by decide)

/-- C10 (zero-length datagrams): an empty payload runs a normal
iteration — counter incremented (header numbered c+1), size logged as
0 bytes, empty decoded text, an empty datagram echoed back to the
source — and the loop carries on with the remaining events. -/
theorem zero_length_datagram (a : Addr) (c : Nat) (evs : List Event) :
    loop c (Event.pkt ⟨a, []⟩ :: evs)
      = (Effect.recvCall recvCeiling
          :: Effect.printOut (packetHeaderOf (c + 1))
          :: Effect.printOut ("  From: " ++ a.host ++ ":" ++ toString a.port)
          :: Effect.printOut "  Size: 0 bytes"
          :: Effect.printOut "  Data: "
          :: Effect.sendTo [] a
          :: Effect.printOut ("  Echoed back to " ++ a.host ++ ":"
              ++ toString a.port)
          :: (loop (c + 1) evs).fst,
         (loop (c + 1) evs).snd) := by
  have h1 : ("  Size: "
      ++ toString (List.take recvCeiling ([] : List Nat)).length ++ " bytes")
      = "  Size: 0 bytes" := by decide
  have h2 : ("  Data: "
      ++ renderText (utf8DecodeReplace (List.take recvCeiling ([] : List Nat))))
      = "  Data: " := by decide
  have h3 : List.take recvCeiling ([] : List Nat) = [] := rfl
  have h : iterEffects (c + 1) ⟨a, []⟩
      = [Effect.recvCall recvCeiling,
         Effect.printOut (packetHeaderOf (c + 1)),
         Effect.printOut ("  From: " ++ a.host ++ ":" ++ toString a.port),
         Effect.printOut "  Size: 0 bytes",
         Effect.printOut "  Data: ",
         Effect.sendTo [] a,
         Effect.printOut ("  Echoed back to " ++ a.host ++ ":"
            ++ toString a.port)] := by
    simp only [iterEffects]
    rw [h1, h2, h3]
  rw [loop_pkt, h]
  rfl

/-- Sanity check on the embedded Python `int` parser and decoder:
plain digits parse, surrounded whitespace and signs are accepted,
underscores only between digits, non-numeric strings are rejected, and
ASCII decodes to itself. -/
theorem embedding_sanity :
    utf8DecodeReplace [0x68, 0x65, 0x6C, 0x6C, 0x6F]
        = [0x68, 0x65, 0x6C, 0x6C, 0x6F]
    ∧ parsePyInt "8080" = some 8080
    ∧ parsePyInt "abc" = none
    ∧ parsePyInt " -17 " = some (-17)
    ∧ parsePyInt "1_0" = some 10
    ∧ parsePyInt "1__0" = none
    ∧ parsePyInt "" = none
    ∧ parsePyInt "0" = some 0
    ∧ parsePyInt "-1" = some (-1) := by
  decide
